import Mathlib

/-!
Verification of the client-side traffic-dashboard core:
the entity store and its delta handlers (`websocketIntegration.ts`,
`useSystemStore` in the Zustand store), the GPS/canvas coordinate
projection (`CityMap.tsx`, `GandhinagarMap.tsx`), the pointer hit-test
(`CityMap.tsx`), and the fallback simulator's signal toggle
(`useDemoMode`).  All JavaScript numbers are modelled as rationals;
`Math.round` is Mathlib's `round` (both are floor of x + 1/2).
-/

namespace CityCore

/-- The definition `SignalColor` mirrors the `SignalColor` union type of `models.ts`. -/
inductive SignalColor
  | RED
  | YELLOW
  | GREEN
deriving DecidableEq

/-- The definition `SignalState` mirrors the `SignalState` interface of `models.ts`. -/
structure SignalState where
  current : SignalColor
  duration : ℚ
  lastChange : ℚ
  timeSinceGreen : ℚ
deriving DecidableEq

/-- The four compass directions used as keys of a junction's signal map. -/
inductive Direction
  | north
  | east
  | south
  | west
deriving DecidableEq

/-- The definition `JunctionSignals` mirrors the `JunctionSignals` interface of `models.ts`.
Each direction is `Option`-valued because the runtime code guards against
missing entries (`if (junction.signals[data.direction])` in the signal-change
handler, `if (!signal) return` when drawing). -/
structure JunctionSignals where
  north : Option SignalState
  east : Option SignalState
  south : Option SignalState
  west : Option SignalState
deriving DecidableEq

/-- Dynamic lookup `signals[direction]`. -/
def JunctionSignals.get (s : JunctionSignals) : Direction → Option SignalState
  | .north => s.north
  | .east => s.east
  | .south => s.south
  | .west => s.west

/-- Dynamic write `{...signals, [direction]: v}`. -/
def JunctionSignals.set (s : JunctionSignals) (d : Direction) (v : Option SignalState) :
    JunctionSignals :=
  match d with
  | .north => { s with north := v }
  | .east => { s with east := v }
  | .south => { s with south := v }
  | .west => { s with west := v }

/-- The definition `Position` mirrors the `Position` interface of `models.ts`. -/
structure Position where
  x : ℚ
  y : ℚ
deriving DecidableEq

/-- The definition `JunctionMetrics` mirrors the interface of the same name in `models.ts`. -/
structure JunctionMetrics where
  vehicleCount : ℚ
  avgWaitTime : ℚ
  density : ℚ
deriving DecidableEq

/-- The `connectedRoads` record of a `Junction` in `models.ts`. -/
structure ConnectedRoads where
  north : Option String
  east : Option String
  south : Option String
  west : Option String
deriving DecidableEq

/-- The definition `Junction` mirrors the `Junction` interface of `models.ts`.  The `lat`
and `lon` fields are not declared on that interface but are read by
`CityMap.tsx` (`junction.lat !== undefined`), so they appear here as
optional runtime fields. -/
structure Junction where
  id : String
  position : Position
  signals : JunctionSignals
  connectedRoads : ConnectedRoads
  metrics : JunctionMetrics
  lastSignalChange : ℚ
  lat : Option ℚ
  lon : Option ℚ
deriving DecidableEq

/-- The definition `VehicleType` mirrors the union type of `models.ts`. -/
inductive VehicleType
  | car
  | bike
  | ambulance
deriving DecidableEq

/-- The definition `Vehicle` mirrors the `Vehicle` interface of `models.ts`. -/
structure Vehicle where
  id : String
  numberPlate : String
  type : VehicleType
  position : Position
  speed : ℚ
  acceleration : ℚ
  heading : ℚ
  currentRoad : Option String
  currentJunction : Option String
  destination : String
  path : List String
  pathIndex : ℚ
  isEmergency : Bool
  isViolating : Bool
  waitingTime : ℚ
  spawnTime : ℚ
  lastUpdate : ℚ
  lat : Option ℚ
  lon : Option ℚ
deriving DecidableEq

/-- The definition `ViolationType` mirrors the union type of `models.ts`. -/
inductive ViolationType
  | RED_LIGHT
  | SPEEDING
  | WRONG_DIRECTION
  | NO_STOPPING
deriving DecidableEq

/-- Severity union `'LOW' | 'MEDIUM' | 'HIGH'` of `models.ts`. -/
inductive Severity
  | LOW
  | MEDIUM
  | HIGH
deriving DecidableEq

/-- The definition `ChallanStatus` mirrors the union type of `models.ts`. -/
inductive ChallanStatus
  | ISSUED
  | PAID
  | PENDING
  | CANCELLED
deriving DecidableEq

/-- The definition `Violation` mirrors the `Violation` interface of `models.ts`. -/
structure Violation where
  id : String
  vehicleId : String
  numberPlate : String
  violationType : ViolationType
  severity : Severity
  location : String
  timestamp : ℚ
  processed : Bool
  challanId : Option String
deriving DecidableEq

/-- The definition `Challan` mirrors the `Challan` interface of `models.ts`. -/
structure Challan where
  challanId : String
  violationId : String
  numberPlate : String
  ownerName : String
  violationType : ViolationType
  violationDescription : Option String
  fineAmount : ℚ
  location : String
  timestamp : ℚ
  status : ChallanStatus
  paymentTimestamp : Option ℚ
  transactionId : Option String
deriving DecidableEq

/-- The slice of the Zustand `SystemStore` state (`useSystemStore`) that the
verified handlers read or write: the entity collections, the `vehicleCount`
counter, and the violation/challan lists.  The remaining fields (mode,
agent, performance, ...) are untouched by the operations modelled here. -/
structure SystemStore where
  vehicles : List Vehicle
  vehicleCount : ℚ
  junctions : List Junction
  violations : List Violation
  challans : List Challan
deriving DecidableEq

/-- The definition `VehicleUpdateData` mirrors the event interface of the websocket
service: the payload of a single vehicle update, also the element type of a
batch update. -/
structure VehicleUpdateData where
  vehicleId : String
  position : Position
  speed : ℚ
  heading : ℚ
  timestamp : ℚ
  lat : Option ℚ
  lon : Option ℚ
deriving DecidableEq

/-- The definition `VehicleBatchUpdate` mirrors the event interface of the websocket
service. -/
structure VehicleBatchUpdate where
  vehicles : List VehicleUpdateData
  count : ℚ
deriving DecidableEq

/-- The definition `VehicleSpawnedData` mirrors the event interface of the websocket
service. -/
structure VehicleSpawnedData where
  vehicleId : String
  numberPlate : String
  type : VehicleType
  position : Position
  destination : String
  timestamp : ℚ
deriving DecidableEq

/-- The definition `VehicleRemovedData` mirrors the event interface of the websocket
service; `reason` is one of three string constants and plays no role in the
handler. -/
structure VehicleRemovedData where
  vehicleId : String
  reason : String
  timestamp : ℚ
deriving DecidableEq

/-- The definition `SignalChangeData` mirrors the event interface of the websocket
service. -/
structure SignalChangeData where
  junctionId : String
  direction : Direction
  newState : SignalColor
  previousState : Option String
  duration : ℚ
  timestamp : ℚ
deriving DecidableEq

/-! ## Entity reconciliation handlers (`websocketIntegration.ts`) -/

/-- The spread `{...vehicles[index], position, speed, heading, lastUpdate,
lat, lon}` of the single-vehicle update handler.  Note that `lat`/`lon` are
assigned from the payload even when the payload omits them (JavaScript then
stores `undefined`), so the result's `lat`/`lon` always equal the
payload's. -/
def updateVehicleFields (v : Vehicle) (d : VehicleUpdateData) : Vehicle :=
  { v with
    position := d.position
    speed := d.speed
    heading := d.heading
    lastUpdate := d.timestamp
    lat := d.lat
    lon := d.lon }

/-- The list-level part of `onVehicleUpdate`: `findIndex` by id, then replace the found
element with the merged vehicle; unchanged when no index matches. -/
def applyVehicleUpdate (d : VehicleUpdateData) : List Vehicle → List Vehicle
  | [] => []
  | v :: rest =>
    if v.id = d.vehicleId then updateVehicleFields v d :: rest
    else v :: applyVehicleUpdate d rest

/-- The `onVehicleUpdate` handler of `websocketIntegration.ts`: it writes
only the `vehicles` field back into the store. -/
def onVehicleUpdate (d : VehicleUpdateData) (s : SystemStore) : SystemStore :=
  { s with vehicles := applyVehicleUpdate d s.vehicles }

/-- The spread used by the batch handler: unlike the single-update handler
it does not assign `lat`/`lon`. -/
def mergeBatchVehicle (v : Vehicle) (d : VehicleUpdateData) : Vehicle :=
  { v with
    position := d.position
    speed := d.speed
    heading := d.heading
    lastUpdate := d.timestamp }

/-- JavaScript `Map.get`: the value stored at the first (and, in a real
`Map`, only) occurrence of the key. -/
def mapGet (k : String) : List (String × Vehicle) → Option Vehicle
  | [] => none
  | (k', v) :: rest => if k' = k then some v else mapGet k rest

/-- JavaScript `Map.set`: replace the value at an existing key in place,
otherwise append a new entry. -/
def mapSet (k : String) (v : Vehicle) : List (String × Vehicle) → List (String × Vehicle)
  | [] => [(k, v)]
  | (k', v') :: rest => if k' = k then (k, v) :: rest else (k', v') :: mapSet k v rest

/-- Model of `new Map(state.vehicles.map(v => [v.id, v]))`: sequential insertion of
every vehicle keyed by its id. -/
def buildVehicleMap (vs : List Vehicle) : List (String × Vehicle) :=
  vs.foldl (fun m v => mapSet v.id v m) []

/-- One iteration of the batch handler's `for` loop: merge the delta over
the existing entry when the id is present, otherwise skip. -/
def applyBatchStep (m : List (String × Vehicle)) (d : VehicleUpdateData) :
    List (String × Vehicle) :=
  match mapGet d.vehicleId m with
  | some ex => mapSet d.vehicleId (mergeBatchVehicle ex d) m
  | none => m

/-- The `onVehicleBatchUpdate` handler of `websocketIntegration.ts`:
build the id-keyed map, fold the deltas over it, and write back
`Array.from(map.values())` together with `vehicleCount := map.size`. -/
def onVehicleBatchUpdate (b : VehicleBatchUpdate) (s : SystemStore) : SystemStore :=
  let m := b.vehicles.foldl applyBatchStep (buildVehicleMap s.vehicles)
  { s with vehicles := m.map Prod.snd, vehicleCount := (m.length : ℚ) }

/-- The vehicle literal constructed by the `onVehicleSpawned` handler. -/
def spawnVehicle (d : VehicleSpawnedData) : Vehicle :=
  { id := d.vehicleId
    numberPlate := d.numberPlate
    type := d.type
    position := d.position
    speed := 0
    acceleration := 0
    heading := 0
    currentRoad := none
    currentJunction := none
    destination := d.destination
    path := []
    pathIndex := 0
    isEmergency := d.type = VehicleType.ambulance
    isViolating := false
    waitingTime := 0
    spawnTime := d.timestamp
    lastUpdate := d.timestamp
    lat := none
    lon := none }

/-- The `onVehicleSpawned` handler of `websocketIntegration.ts`: append the
new vehicle to the collection unconditionally and increment
`vehicleCount`. -/
def onVehicleSpawned (d : VehicleSpawnedData) (s : SystemStore) : SystemStore :=
  { s with
    vehicles := s.vehicles ++ [spawnVehicle d]
    vehicleCount := s.vehicleCount + 1 }

/-- The `onVehicleRemoved` handler of `websocketIntegration.ts`: filter the
id out of the collection and decrement `vehicleCount` unconditionally. -/
def onVehicleRemoved (d : VehicleRemovedData) (s : SystemStore) : SystemStore :=
  { s with
    vehicles := s.vehicles.filter (fun v => v.id != d.vehicleId)
    vehicleCount := s.vehicleCount - 1 }

/-- The `removeVehicle` action of the Zustand store (`useSystemStore`):
same filter, but `vehicleCount` is set to `Math.max(0, vehicles.length - 1)`
computed from the pre-removal length. -/
def removeVehicle (vehicleId : String) (s : SystemStore) : SystemStore :=
  { s with
    vehicles := s.vehicles.filter (fun v => v.id != vehicleId)
    vehicleCount := max 0 ((s.vehicles.length : ℚ) - 1) }

/-- The spread `{...junction.signals[direction], current, duration,
lastChange}` of the `onSignalChange` handler. -/
def updatedSignal (s : SignalState) (d : SignalChangeData) : SignalState :=
  { s with current := d.newState, duration := d.duration, lastChange := d.timestamp }

/-- The list-level part of `onSignalChange`: `junctions.find(j => j.id === junctionId)`
followed by `if (junction && junction.signals[direction])` and an update of
that one direction plus the junction's `lastSignalChange`.  Only the first
junction with a matching id is considered; when its direction entry is
missing nothing changes. -/
def applySignalChange (d : SignalChangeData) : List Junction → List Junction
  | [] => []
  | j :: rest =>
    if j.id = d.junctionId then
      match j.signals.get d.direction with
      | some s =>
          { j with
            signals := j.signals.set d.direction (some (updatedSignal s d))
            lastSignalChange := d.timestamp } :: rest
      | none => j :: rest
    else j :: applySignalChange d rest

/-- The `onSignalChange` handler of `websocketIntegration.ts`. -/
def onSignalChange (d : SignalChangeData) (s : SystemStore) : SystemStore :=
  { s with junctions := applySignalChange d s.junctions }

/-! ## Violation / challan actions (`useSystemStore`) -/

/-- The `addViolation` action: `[violation, ...violations].slice(0, 100)`. -/
def addViolation (v : Violation) (s : SystemStore) : SystemStore :=
  { s with violations := (v :: s.violations).take 100 }

/-- The `addChallan` action: `[challan, ...challans].slice(0, 100)`. -/
def addChallan (c : Challan) (s : SystemStore) : SystemStore :=
  { s with challans := (c :: s.challans).take 100 }

/-- The `updateChallanStatus` action: map over the challans, rewriting the
status of entries with the matching id. -/
def updateChallanStatus (challanId : String) (status : ChallanStatus) (s : SystemStore) :
    SystemStore :=
  { s with
    challans := s.challans.map fun c =>
      if c.challanId = challanId then { c with status := status } else c }

/-! ## Coordinate projection (`CityMap.tsx`, `GandhinagarMap.tsx`) -/

/-- The definition `MapBounds` mirrors the interface of `models.ts`. -/
structure MapBounds where
  north : ℚ
  south : ℚ
  east : ℚ
  west : ℚ
deriving DecidableEq

/-- The hard-coded Gandhinagar bounding box.  `CityMap.tsx` declares it as
the module constant `GANDHINAGAR_BOUNDS`; `GandhinagarMap.tsx` re-declares
the identical literal locally inside `canvasToGPS`. -/
def GANDHINAGAR_BOUNDS : MapBounds :=
  { north := 23.25, south := 23.18, east := 72.68, west := 72.60 }

/-- Function `gpsToCanvas` of `CityMap.tsx`: normalize the coordinate inside the
bounding box, scale to the padded canvas, and `Math.round` each component.
All call sites use the default `padding = 20`. -/
def gpsToCanvas (lat lon canvasWidth canvasHeight padding : ℚ) : ℚ × ℚ :=
  let latRange := GANDHINAGAR_BOUNDS.north - GANDHINAGAR_BOUNDS.south
  let lonRange := GANDHINAGAR_BOUNDS.east - GANDHINAGAR_BOUNDS.west
  let usableWidth := canvasWidth - 2 * padding
  let usableHeight := canvasHeight - 2 * padding
  let xNormalized := (lon - GANDHINAGAR_BOUNDS.west) / lonRange
  let yNormalized := (GANDHINAGAR_BOUNDS.north - lat) / latRange
  let x := padding + xNormalized * usableWidth
  let y := padding + yNormalized * usableHeight
  (((round x : ℤ) : ℚ), ((round y : ℤ) : ℚ))

/-- Function `canvasToGPS` of `GandhinagarMap.tsx`: the linear inverse over the full
(unpadded) canvas, returning `[lat, lng]`. -/
def canvasToGPS (x y canvasWidth canvasHeight : ℚ) : ℚ × ℚ :=
  let lat := GANDHINAGAR_BOUNDS.south +
    (1 - y / canvasHeight) * (GANDHINAGAR_BOUNDS.north - GANDHINAGAR_BOUNDS.south)
  let lng := GANDHINAGAR_BOUNDS.west +
    (x / canvasWidth) * (GANDHINAGAR_BOUNDS.east - GANDHINAGAR_BOUNDS.west)
  (lat, lng)

/-! ## Pointer hit-test (`handleMouseMove` in `CityMap.tsx`) -/

/-- The per-junction pixel position computed inside `handleMouseMove`:
use `lat`/`lon` when both are present, otherwise the stored position,
GPS-sniffed by the range heuristic (`70 < x < 80` and `20 < y < 30`) and
converted with lat and lon swapped out of the position's `y`/`x`. -/
def junctionCanvasPos (canvasWidth canvasHeight : ℚ) (j : Junction) : ℚ × ℚ :=
  match j.lat, j.lon with
  | some la, some lo => gpsToCanvas la lo canvasWidth canvasHeight 20
  | _, _ =>
    let jx := j.position.x
    let jy := j.position.y
    if 70 < jx ∧ jx < 80 ∧ 20 < jy ∧ jy < 30 then
      gpsToCanvas jy jx canvasWidth canvasHeight 20
    else (jx, jy)

/-- Squared pixel distance.  The source compares
`Math.sqrt(dx*dx + dy*dy) < 30`; both sides are non-negative, so this is
exactly the squared comparison `dx*dx + dy*dy < 900` used below. -/
def sqDist (a b : ℚ × ℚ) : ℚ :=
  (a.1 - b.1) * (a.1 - b.1) + (a.2 - b.2) * (a.2 - b.2)

/-- The hover hit-test loop of `handleMouseMove`: walk the junction list in
order and stop (`break`) at the first junction whose projected position is
strictly within 30 pixels of the pointer; `none` when the loop finds no
junction (the handler then clears the hover). -/
def hitTestHover (canvasWidth canvasHeight mx my : ℚ) : List Junction → Option String
  | [] => none
  | j :: rest =>
    if sqDist (mx, my) (junctionCanvasPos canvasWidth canvasHeight j) < 900 then some j.id
    else hitTestHover canvasWidth canvasHeight mx my rest

/-! ## Fallback simulator signal toggle (`useDemoMode` tick) -/

/-- The per-junction signal rewrite of the demo-mode tick: read
`nsGreen = (signals.north.current === 'GREEN')` and rebuild all four
directions, the north/south pair opposite to the east/west pair.  The
source assumes every direction is present (mock junctions always are);
`none` models the `TypeError` the JavaScript would raise on a junction
missing one of them.  `now` stands for `Date.now() / 1000`. -/
def toggleJunctionSignals (now : ℚ) (j : Junction) : Option Junction :=
  match j.signals.north, j.signals.south, j.signals.east, j.signals.west with
  | some n, some s, some e, some w =>
    let ns := if n.current = SignalColor.GREEN then SignalColor.RED else SignalColor.GREEN
    let ew := if n.current = SignalColor.GREEN then SignalColor.GREEN else SignalColor.RED
    some
      { j with
        signals :=
          { north := some { n with current := ns }
            east := some { e with current := ew }
            south := some { s with current := ns }
            west := some { w with current := ew } }
        lastSignalChange := now }
  | _, _, _, _ => none

/-! ## Concrete fixtures for witnesses and counterexamples -/

/-- A concrete vehicle with the given id, used by witnesses. -/
def testVehicle (id : String) : Vehicle :=
  { id := id
    numberPlate := "GJ-18-0001"
    type := VehicleType.car
    position := ⟨100, 100⟩
    speed := 10
    acceleration := 0
    heading := 90
    currentRoad := none
    currentJunction := none
    destination := "J2"
    path := []
    pathIndex := 0
    isEmergency := false
    isViolating := false
    waitingTime := 0
    spawnTime := 0
    lastUpdate := 0
    lat := none
    lon := none }

/-- A concrete signal state with the given color, used by witnesses. -/
def testSignal (c : SignalColor) : SignalState :=
  { current := c, duration := 30, lastChange := 0, timeSinceGreen := 0 }

/-- A concrete junction at the given canvas position with a full signal
map, used by witnesses. -/
def testJunction (id : String) (px py : ℚ) : Junction :=
  { id := id
    position := ⟨px, py⟩
    signals :=
      { north := some (testSignal SignalColor.RED)
        east := some (testSignal SignalColor.GREEN)
        south := some (testSignal SignalColor.RED)
        west := some (testSignal SignalColor.GREEN) }
    connectedRoads := ⟨none, none, none, none⟩
    metrics := ⟨0, 0, 0⟩
    lastSignalChange := 0
    lat := none
    lon := none }

/-- A store holding only the given vehicles, with `vehicleCount` kept in
sync. -/
def vehicleStore (vs : List Vehicle) : SystemStore :=
  { vehicles := vs
    vehicleCount := (vs.length : ℚ)
    junctions := []
    violations := []
    challans := [] }

end CityCore

namespace CityCore

/-! ## C5: unknown-id vehicle update is a no-op -/

theorem applyVehicleUpdate_not_mem (d : VehicleUpdateData) :
    ∀ vs : List Vehicle, d.vehicleId ∉ vs.map Vehicle.id → applyVehicleUpdate d vs = vs := by
  intro vs
  induction vs with
  | nil => intro _; rfl
  | cons v rest ih =>
    intro h
    simp only [List.map_cons, List.mem_cons, not_or] at h
    simp only [applyVehicleUpdate, ih h.2]
    rw [if_neg]
    intro hv
    exact h.1 hv.symm

/-- C5: applying a vehicle-update event whose vehicle id is not present in
the store leaves the whole store state unchanged (in particular the vehicle
collection keeps the same size and elements), and the handler is a total
function, so no exception is raised. -/
theorem onVehicleUpdate_unknown_id_noop (d : VehicleUpdateData) (s : SystemStore)
    (h : d.vehicleId ∉ s.vehicles.map Vehicle.id) :
    onVehicleUpdate d s = s ∧
    (onVehicleUpdate d s).vehicles.length = s.vehicles.length := by
  have hv : applyVehicleUpdate d s.vehicles = s.vehicles :=
    applyVehicleUpdate_not_mem d s.vehicles h
  constructor
  · show { s with vehicles := applyVehicleUpdate d s.vehicles } = s
    rw [hv]
  · simp [onVehicleUpdate, hv]

/-- Witness for C5, matching the spec scenario: a store holding 5 vehicles
receives an update for the absent id "V-999"; the store is unchanged and
its size stays 5. -/
theorem onVehicleUpdate_unknown_id_noop_witness :
    ("V-999" ∉ ((vehicleStore
        [testVehicle "V-001", testVehicle "V-002", testVehicle "V-003",
         testVehicle "V-004", testVehicle "V-005"]).vehicles.map Vehicle.id)) ∧
    onVehicleUpdate ⟨"V-999", ⟨1, 2⟩, 3, 4, 5, none, none⟩
        (vehicleStore
          [testVehicle "V-001", testVehicle "V-002", testVehicle "V-003",
           testVehicle "V-004", testVehicle "V-005"]) =
      vehicleStore
        [testVehicle "V-001", testVehicle "V-002", testVehicle "V-003",
         testVehicle "V-004", testVehicle "V-005"] :=
  ⟨by decide,
    (onVehicleUpdate_unknown_id_noop _ _ (by decide)).1⟩

/-! ## C10: violation/challan lists are newest-first and capped at 100 -/

/-- C10: `addViolation` (resp. `addChallan`) produces the new record at
index 0 followed by the previous records truncated to 99, so the list never
exceeds 100 entries; `updateChallanStatus` preserves the list length. -/
theorem addViolation_addChallan_capped (v : Violation) (c : Challan)
    (cid : String) (st : ChallanStatus) (s : SystemStore) :
    (addViolation v s).violations = v :: s.violations.take 99 ∧
    (addViolation v s).violations.length ≤ 100 ∧
    (addChallan c s).challans = c :: s.challans.take 99 ∧
    (addChallan c s).challans.length ≤ 100 ∧
    (updateChallanStatus cid st s).challans.length = s.challans.length := by
  refine ⟨?_, ?_, ?_, ?_, ?_⟩
  · simp [addViolation, List.take_succ_cons]
  · have := List.length_take_le 99 s.violations
    simp only [addViolation, List.take_succ_cons, List.length_cons]
    omega
  · simp [addChallan, List.take_succ_cons]
  · have := List.length_take_le 99 s.challans
    simp only [addChallan, List.take_succ_cons, List.length_cons]
    omega
  · simp [updateChallanStatus]

/-! ## C6: spawn semantics -/

/-- Counterexample to C6: spawning id "V-1" into a store that already
holds a vehicle with id "V-1" does not overwrite the old entry — the
handler appends unconditionally, so the collection ends up with two
vehicles carrying the same id. -/
theorem onVehicleSpawned_duplicate_counterexample :
    ((onVehicleSpawned ⟨"V-1", "GJ-18-9999", VehicleType.car, ⟨5, 5⟩, "J3", 7⟩
        (vehicleStore [testVehicle "V-1"])).vehicles.map Vehicle.id) = ["V-1", "V-1"] ∧
    ¬ ((onVehicleSpawned ⟨"V-1", "GJ-18-9999", VehicleType.car, ⟨5, 5⟩, "J3", 7⟩
        (vehicleStore [testVehicle "V-1"])).vehicles.map Vehicle.id).Nodup := by
  constructor
  · decide
  · decide

/-- C6 (amended): the spawn handler always appends the freshly constructed
vehicle to the end of the collection and increments `vehicleCount` by one;
an id collision is not detected, so a duplicate id stays in the
collection. -/
theorem onVehicleSpawned_appends (d : VehicleSpawnedData) (s : SystemStore) :
    (onVehicleSpawned d s).vehicles = s.vehicles ++ [spawnVehicle d] ∧
    (onVehicleSpawned d s).vehicleCount = s.vehicleCount + 1 :=
  ⟨rfl, rfl⟩

/-! ## C7: removal semantics -/

/-- Counterexample to C7: removing the absent id "V-999" from a store
holding one vehicle (count 1) leaves the vehicle list unchanged but still
decrements `vehicleCount` to 0, so the store state is *not* unchanged. -/
theorem onVehicleRemoved_absent_counterexample :
    (onVehicleRemoved ⟨"V-999", "despawned", 10⟩
        (vehicleStore [testVehicle "V-1"])).vehicles =
      (vehicleStore [testVehicle "V-1"]).vehicles ∧
    (vehicleStore [testVehicle "V-1"]).vehicleCount = 1 ∧
    (onVehicleRemoved ⟨"V-999", "despawned", 10⟩
        (vehicleStore [testVehicle "V-1"])).vehicleCount = 0 ∧
    onVehicleRemoved ⟨"V-999", "despawned", 10⟩ (vehicleStore [testVehicle "V-1"]) ≠
      vehicleStore [testVehicle "V-1"] := by
  refine ⟨by decide, by decide, ?_, ?_⟩
  · show (vehicleStore [testVehicle "V-1"]).vehicleCount - 1 = 0
    norm_num [vehicleStore]
  · intro h
    have hc := congrArg SystemStore.vehicleCount h
    simp only [onVehicleRemoved, vehicleStore, List.length_cons, List.length_nil] at hc
    norm_num at hc

/-- C7 (amended): a removal event deletes exactly the vehicles carrying
the given id — none survives, every vehicle with a different id is
retained, in order (the result is a sublist), and the store's
`removeVehicle` action produces the same collection; the websocket
handler decrements `vehicleCount` by one unconditionally, so when no
vehicle has that id the vehicle list is unchanged yet the count still
drops (the store action sets it to `max 0 (length - 1)`) — the removal is
not a no-op on the store state. -/
theorem onVehicleRemoved_deletes_id (d : VehicleRemovedData) (s : SystemStore) :
    (∀ v ∈ (onVehicleRemoved d s).vehicles, v.id ≠ d.vehicleId) ∧
    (∀ v ∈ s.vehicles, v.id ≠ d.vehicleId → v ∈ (onVehicleRemoved d s).vehicles) ∧
    (onVehicleRemoved d s).vehicles.Sublist s.vehicles ∧
    (removeVehicle d.vehicleId s).vehicles = (onVehicleRemoved d s).vehicles ∧
    (onVehicleRemoved d s).vehicleCount = s.vehicleCount - 1 ∧
    (d.vehicleId ∉ s.vehicles.map Vehicle.id →
      (onVehicleRemoved d s).vehicles = s.vehicles ∧
      (removeVehicle d.vehicleId s).vehicleCount =
        max 0 ((s.vehicles.length : ℚ) - 1)) := by
  refine ⟨?_, ?_, List.filter_sublist s.vehicles, rfl, rfl, ?_⟩
  · intro v hv
    have hp := (List.mem_filter.mp hv).2
    exact bne_iff_ne.mp hp
  · intro v hv hne
    exact List.mem_filter.mpr ⟨hv, bne_iff_ne.mpr hne⟩
  · intro h
    have hfilter : s.vehicles.filter (fun v => v.id != d.vehicleId) = s.vehicles := by
      refine List.filter_eq_self.mpr ?_
      intro v hv
      simp only [bne_iff_ne, ne_eq]
      intro hid
      exact h (hid ▸ List.mem_map_of_mem Vehicle.id hv)
    exact ⟨hfilter, rfl⟩

/-- Witness for C7 (amended), exercising both cases: removing the present
id "V-1" from a two-vehicle store leaves no vehicle with that id while
"V-2" survives; removing the absent id "V-999" from a one-vehicle store
leaves the list unchanged but the counts still take their stated
values. -/
theorem onVehicleRemoved_deletes_id_witness :
    (∀ v ∈ (onVehicleRemoved ⟨"V-1", "despawned", 10⟩
        (vehicleStore [testVehicle "V-1", testVehicle "V-2"])).vehicles,
      v.id ≠ "V-1") ∧
    testVehicle "V-2" ∈ (onVehicleRemoved ⟨"V-1", "despawned", 10⟩
        (vehicleStore [testVehicle "V-1", testVehicle "V-2"])).vehicles ∧
    ("V-999" ∉ (vehicleStore [testVehicle "V-1"]).vehicles.map Vehicle.id) ∧
    (onVehicleRemoved ⟨"V-999", "despawned", 10⟩
        (vehicleStore [testVehicle "V-1"])).vehicles =
      (vehicleStore [testVehicle "V-1"]).vehicles ∧
    (onVehicleRemoved ⟨"V-999", "despawned", 10⟩
        (vehicleStore [testVehicle "V-1"])).vehicleCount =
      (vehicleStore [testVehicle "V-1"]).vehicleCount - 1 ∧
    (removeVehicle "V-999" (vehicleStore [testVehicle "V-1"])).vehicleCount =
      max 0 (((vehicleStore [testVehicle "V-1"]).vehicles.length : ℚ) - 1) := by
  have h1 := onVehicleRemoved_deletes_id ⟨"V-1", "despawned", 10⟩
    (vehicleStore [testVehicle "V-1", testVehicle "V-2"])
  have h2 := onVehicleRemoved_deletes_id ⟨"V-999", "despawned", 10⟩
    (vehicleStore [testVehicle "V-1"])
  refine ⟨h1.1, ?_, by decide, (h2.2.2.2.2.2 (by decide)).1, h2.2.2.2.2.1,
    (h2.2.2.2.2.2 (by decide)).2⟩
  exact h1.2.1 (testVehicle "V-2") (by decide) (by decide)

/-! ## C9: demo-mode signal toggle keeps perpendicular pairs opposed -/

/-- C9: whenever the demo-mode signal toggle rewrites a junction, the
resulting junction carries the same signal color on north and south, the
same color on east and west, and the north/south pair is GREEN exactly
when the east/west pair is RED — in particular the two perpendicular pairs
are never simultaneously GREEN. -/
theorem toggleJunctionSignals_pairs_opposed (now : ℚ) (j j' : Junction)
    (h : toggleJunctionSignals now j = some j') :
    ∃ n e s w : SignalState,
      j'.signals.north = some n ∧ j'.signals.east = some e ∧
      j'.signals.south = some s ∧ j'.signals.west = some w ∧
      n.current = s.current ∧ e.current = w.current ∧
      (n.current = SignalColor.GREEN ↔ e.current = SignalColor.RED) ∧
      ¬(n.current = SignalColor.GREEN ∧ e.current = SignalColor.GREEN) := by
  unfold toggleJunctionSignals at h
  cases hn : j.signals.north with
  | none => rw [hn] at h; exact absurd h (by simp)
  | some n0 =>
  cases hs : j.signals.south with
  | none => rw [hn, hs] at h; exact absurd h (by simp)
  | some s0 =>
  cases he : j.signals.east with
  | none => rw [hn, hs, he] at h; exact absurd h (by simp)
  | some e0 =>
  cases hw : j.signals.west with
  | none => rw [hn, hs, he, hw] at h; exact absurd h (by simp)
  | some w0 =>
  rw [hn, hs, he, hw] at h
  simp only [Option.some.injEq] at h
  subst h
  by_cases hg : n0.current = SignalColor.GREEN
  · refine ⟨_, _, _, _, rfl, rfl, rfl, rfl, ?_, ?_, ?_, ?_⟩ <;> simp [hg]
  · refine ⟨_, _, _, _, rfl, rfl, rfl, rfl, ?_, ?_, ?_, ?_⟩ <;> simp [hg]

/-- Witness for C9: toggling a concrete junction whose north signal is RED
turns the north/south pair GREEN and the east/west pair RED. -/
theorem toggleJunctionSignals_pairs_opposed_witness :
    (toggleJunctionSignals 42 (testJunction "J1" 100 100)).isSome ∧
    ∃ j' : Junction, toggleJunctionSignals 42 (testJunction "J1" 100 100) = some j' ∧
      ∃ n e s w : SignalState,
        j'.signals.north = some n ∧ j'.signals.east = some e ∧
        j'.signals.south = some s ∧ j'.signals.west = some w ∧
        n.current = s.current ∧ e.current = w.current ∧
        (n.current = SignalColor.GREEN ↔ e.current = SignalColor.RED) ∧
        ¬(n.current = SignalColor.GREEN ∧ e.current = SignalColor.GREEN) := by
  refine ⟨by decide, ?_⟩
  cases hj : toggleJunctionSignals 42 (testJunction "J1" 100 100) with
  | none => exact absurd hj (by decide)
  | some j' => exact ⟨j', rfl, toggleJunctionSignals_pairs_opposed 42 _ j' hj⟩

/-! ## C1: a signal-change event touches exactly one direction entry -/

theorem JunctionSignals.get_set (s : JunctionSignals) (d : Direction)
    (v : Option SignalState) (dir : Direction) :
    (s.set d v).get dir = if dir = d then v else s.get dir := by
  cases d <;> cases dir <;> simp [JunctionSignals.get, JunctionSignals.set]

theorem applySignalChange_length (d : SignalChangeData) :
    ∀ js : List Junction, (applySignalChange d js).length = js.length := by
  intro js
  induction js with
  | nil => rfl
  | cons j rest ih =>
    simp only [applySignalChange]
    split
    · split <;> simp
    · simp [ih]

theorem applySignalChange_get (d : SignalChangeData) :
    ∀ (js : List Junction) (i : ℕ) (j j' : Junction),
      js[i]? = some j → (applySignalChange d js)[i]? = some j' →
        ((j.id ≠ d.junctionId → j' = j) ∧
         (∀ dir : Direction, dir ≠ d.direction → j'.signals.get dir = j.signals.get dir) ∧
         ((j.id = d.junctionId ∧
             ∀ (k : ℕ) (jk : Junction), k < i → js[k]? = some jk → jk.id ≠ d.junctionId) →
           ∀ sig : SignalState, j.signals.get d.direction = some sig →
             j'.signals.get d.direction = some (updatedSignal sig d))) := by
  intro js
  induction js with
  | nil => intro i j j' hj _; simp at hj
  | cons j0 rest ih =>
    intro i j j' hj hj'
    by_cases h0 : j0.id = d.junctionId
    · cases hsig : j0.signals.get d.direction with
      | some sg =>
        have hres : applySignalChange d (j0 :: rest) =
            { j0 with
              signals := j0.signals.set d.direction (some (updatedSignal sg d))
              lastSignalChange := d.timestamp } :: rest := by
          simp [applySignalChange, h0, hsig]
        rw [hres] at hj'
        cases i with
        | zero =>
          rw [List.getElem?_cons_zero, Option.some_inj] at hj hj'
          subst hj; subst hj'
          refine ⟨fun hne => absurd h0 hne, ?_, ?_⟩
          · intro dir hdir
            show (j0.signals.set d.direction (some (updatedSignal sg d))).get dir = _
            rw [JunctionSignals.get_set, if_neg hdir]
          · intro _ sig hsig2
            rw [hsig, Option.some_inj] at hsig2
            subst hsig2
            show (j0.signals.set d.direction (some (updatedSignal sg d))).get d.direction = _
            rw [JunctionSignals.get_set, if_pos rfl]
        | succ n =>
          rw [List.getElem?_cons_succ] at hj hj'
          rw [hj, Option.some_inj] at hj'
          subst hj'
          refine ⟨fun _ => rfl, fun _ _ => rfl, ?_⟩
          rintro ⟨_, hprev⟩
          exact absurd h0 (hprev 0 j0 (Nat.succ_pos n) (by simp))
      | none =>
        have hres : applySignalChange d (j0 :: rest) = j0 :: rest := by
          simp [applySignalChange, h0, hsig]
        rw [hres] at hj'
        rw [hj, Option.some_inj] at hj'
        subst hj'
        refine ⟨fun _ => rfl, fun _ _ => rfl, ?_⟩
        rintro ⟨hjid, hprev⟩ sig hsig2
        cases i with
        | zero =>
          rw [List.getElem?_cons_zero, Option.some_inj] at hj
          subst hj
          rw [hsig] at hsig2
          exact absurd hsig2 (by simp)
        | succ n =>
          exact absurd h0 (hprev 0 j0 (Nat.succ_pos n) (by simp))
    · have hres : applySignalChange d (j0 :: rest) = j0 :: applySignalChange d rest := by
        simp [applySignalChange, h0]
      rw [hres] at hj'
      cases i with
      | zero =>
        rw [List.getElem?_cons_zero, Option.some_inj] at hj hj'
        subst hj; subst hj'
        exact ⟨fun _ => rfl, fun _ _ => rfl, fun h => absurd h.1 h0⟩
      | succ n =>
        rw [List.getElem?_cons_succ] at hj hj'
        have IH := ih n j j' hj hj'
        refine ⟨IH.1, IH.2.1, ?_⟩
        rintro ⟨hjid, hprev⟩
        refine IH.2.2 ⟨hjid, ?_⟩
        intro k jk hk hjk
        exact hprev (k + 1) jk (Nat.succ_lt_succ hk) (by simpa using hjk)

/-- C1: applying a signal-change event preserves the number of junctions;
every junction whose id differs from the event's is unchanged; every
direction other than the event's keeps its `SignalState` entry in every
junction; and the first junction carrying the event's id has exactly its
addressed direction replaced by the old entry with `current`, `duration`
and `lastChange` overwritten (`updatedSignal`). -/
theorem onSignalChange_frame (d : SignalChangeData) (s : SystemStore) :
    (onSignalChange d s).junctions.length = s.junctions.length ∧
    ∀ (i : ℕ) (j j' : Junction),
      s.junctions[i]? = some j → (onSignalChange d s).junctions[i]? = some j' →
        ((j.id ≠ d.junctionId → j' = j) ∧
         (∀ dir : Direction, dir ≠ d.direction → j'.signals.get dir = j.signals.get dir) ∧
         ((j.id = d.junctionId ∧
             ∀ (k : ℕ) (jk : Junction), k < i →
               s.junctions[k]? = some jk → jk.id ≠ d.junctionId) →
           ∀ sig : SignalState, j.signals.get d.direction = some sig →
             j'.signals.get d.direction = some (updatedSignal sig d))) :=
  ⟨applySignalChange_length d s.junctions,
    fun i j j' hj hj' => applySignalChange_get d s.junctions i j j' hj hj'⟩

/-- The signal-change event of the spec scenario: junction "J1", north
RED → GREEN, the other three directions untouched. -/
def evC1 : SignalChangeData :=
  { junctionId := "J1"
    direction := Direction.north
    newState := SignalColor.GREEN
    previousState := none
    duration := 25
    timestamp := 99 }

/-- A store holding two junctions "J1" and "J2". -/
def storeC1 : SystemStore :=
  { vehicleStore [] with junctions := [testJunction "J1" 10 10, testJunction "J2" 50 50] }

/-- Witness for C1, the spec scenario: the event rewrites J1's north entry
to GREEN with the event's duration and timestamp, J1's south keeps its
prior entry, and J2 (index 1) is unchanged. -/
theorem onSignalChange_frame_witness :
    (onSignalChange evC1 storeC1).junctions.length = 2 ∧
    ∃ j' : Junction, (onSignalChange evC1 storeC1).junctions[0]? = some j' ∧
      j'.signals.get Direction.north =
        some (updatedSignal (testSignal SignalColor.RED) evC1) ∧
      j'.signals.get Direction.south =
        (testJunction "J1" 10 10).signals.get Direction.south ∧
      (onSignalChange evC1 storeC1).junctions[1]? = some (testJunction "J2" 50 50) := by
  obtain ⟨hlen, hpt⟩ := onSignalChange_frame evC1 storeC1
  refine ⟨by rw [hlen]; rfl, ?_⟩
  cases hj' : (onSignalChange evC1 storeC1).junctions[0]? with
  | none =>
    have h0 : 0 < (onSignalChange evC1 storeC1).junctions.length := by rw [hlen]; decide
    rw [List.getElem?_eq_getElem h0] at hj'
    exact absurd hj' (by simp)
  | some j' =>
    have hfacts := hpt 0 (testJunction "J1" 10 10) j' (by simp [storeC1]) hj'
    refine ⟨j', rfl, ?_, ?_, ?_⟩
    · exact hfacts.2.2 ⟨by decide, fun k jk hk _ => absurd hk (Nat.not_lt_zero k)⟩
        (testSignal SignalColor.RED) (by rfl)
    · exact hfacts.2.1 Direction.south (by decide)
    · cases hj2 : (onSignalChange evC1 storeC1).junctions[1]? with
      | none =>
        have h1 : 1 < (onSignalChange evC1 storeC1).junctions.length := by rw [hlen]; decide
        rw [List.getElem?_eq_getElem h1] at hj2
        exact absurd hj2 (by simp)
      | some j2 =>
        have hf2 := hpt 1 (testJunction "J2" 50 50) j2 (by simp [storeC1]) hj2
        rw [hf2.1 (by decide)]

/-! ## C2: a batch update touches exactly the referenced vehicles -/

theorem mapSet_append_of_not_mem (k : String) (v : Vehicle) :
    ∀ m : List (String × Vehicle), k ∉ m.map Prod.fst → mapSet k v m = m ++ [(k, v)] := by
  intro m
  induction m with
  | nil => intro _; rfl
  | cons p rest ih =>
    obtain ⟨k0, v0⟩ := p
    intro h
    simp only [List.map_cons, List.mem_cons, not_or] at h
    simp only [mapSet, ih h.2]
    rw [if_neg (fun he => h.1 he.symm), List.cons_append]

theorem buildVehicleMap_go :
    ∀ (vs : List Vehicle) (acc : List (String × Vehicle)),
      (∀ v ∈ vs, v.id ∉ acc.map Prod.fst) → (vs.map Vehicle.id).Nodup →
      vs.foldl (fun m v => mapSet v.id v m) acc = acc ++ vs.map (fun v => (v.id, v)) := by
  intro vs
  induction vs with
  | nil => intro acc _ _; simp
  | cons v rest ih =>
    intro acc hacc hnd
    simp only [List.map_cons, List.nodup_cons] at hnd
    have hset : mapSet v.id v acc = acc ++ [(v.id, v)] :=
      mapSet_append_of_not_mem v.id v acc (hacc v (List.mem_cons_self v rest))
    have hacc' : ∀ w ∈ rest, w.id ∉ (acc ++ [(v.id, v)]).map Prod.fst := by
      intro w hw
      simp only [List.map_append, List.mem_append, List.map_cons, List.map_nil,
        List.mem_singleton, not_or]
      refine ⟨hacc w (List.mem_cons_of_mem v hw), ?_⟩
      intro hwid
      exact hnd.1 (hwid ▸ List.mem_map_of_mem Vehicle.id hw)
    calc (v :: rest).foldl (fun m w => mapSet w.id w m) acc
        = rest.foldl (fun m w => mapSet w.id w m) (mapSet v.id v acc) := rfl
      _ = (acc ++ [(v.id, v)]) ++ rest.map (fun w => (w.id, w)) := by
          rw [hset]; exact ih _ hacc' hnd.2
      _ = acc ++ ((v.id, v) :: rest.map (fun w => (w.id, w))) := by
          rw [List.append_assoc]; rfl
      _ = acc ++ (v :: rest).map (fun w => (w.id, w)) := rfl

theorem applyBatchStep_get (u : VehicleUpdateData) :
    ∀ m : List (String × Vehicle), (m.map Prod.fst).Nodup →
      ((applyBatchStep m u).map Prod.fst = m.map Prod.fst) ∧
      ∀ (i : ℕ) (k : String) (v : Vehicle), m[i]? = some (k, v) →
        (applyBatchStep m u)[i]? =
          some (k, if u.vehicleId = k then mergeBatchVehicle v u else v) := by
  intro m
  induction m with
  | nil =>
    intro _
    exact ⟨rfl, fun i k v h => by simp at h⟩
  | cons p rest ih =>
    obtain ⟨k0, v0⟩ := p
    intro hnd
    simp only [List.map_cons, List.nodup_cons] at hnd
    by_cases hk : k0 = u.vehicleId
    · have hres : applyBatchStep ((k0, v0) :: rest) u =
          (u.vehicleId, mergeBatchVehicle v0 u) :: rest := by
        simp [applyBatchStep, mapGet, mapSet, hk]
      rw [hres]
      constructor
      · simp [hk]
      · intro i k v hi
        cases i with
        | zero =>
          rw [List.getElem?_cons_zero, Option.some_inj] at hi
          rw [List.getElem?_cons_zero, Option.some_inj]
          obtain ⟨hk1, hv1⟩ := Prod.mk.injEq .. ▸ hi
          subst hk1; subst hv1
          rw [if_pos hk.symm]
          exact Prod.mk.injEq .. ▸ ⟨hk.symm, rfl⟩
        | succ n =>
          rw [List.getElem?_cons_succ] at hi ⊢
          rw [hi, Option.some_inj]
          have hkmem : k ∈ rest.map Prod.fst := by
            obtain ⟨hn, hv⟩ := List.getElem?_eq_some.mp hi
            have hmem : (k, v) ∈ rest := hv ▸ List.getElem_mem hn
            exact List.mem_map_of_mem Prod.fst hmem
          have : ¬ u.vehicleId = k := by
            intro he
            exact hnd.1 ((hk.trans he) ▸ hkmem)
          rw [if_neg this]
    · have hres : applyBatchStep ((k0, v0) :: rest) u = (k0, v0) :: applyBatchStep rest u := by
        cases hg : mapGet u.vehicleId rest with
        | none => simp [applyBatchStep, mapGet, hk, hg]
        | some ex => simp [applyBatchStep, mapGet, mapSet, hk, hg]
      rw [hres]
      have IH := ih hnd.2
      constructor
      · simp [IH.1]
      · intro i k v hi
        cases i with
        | zero =>
          rw [List.getElem?_cons_zero, Option.some_inj] at hi
          rw [List.getElem?_cons_zero, Option.some_inj]
          obtain ⟨hk1, hv1⟩ := Prod.mk.injEq .. ▸ hi
          subst hk1; subst hv1
          rw [if_neg (fun he => hk he.symm)]
        | succ n =>
          rw [List.getElem?_cons_succ] at hi ⊢
          exact IH.2 n k v hi

theorem batchFold_get :
    ∀ (us : List VehicleUpdateData) (m : List (String × Vehicle)),
      (m.map Prod.fst).Nodup →
      ((us.foldl applyBatchStep m).map Prod.fst = m.map Prod.fst) ∧
      ∀ (i : ℕ) (k : String) (v : Vehicle), m[i]? = some (k, v) →
        (us.foldl applyBatchStep m)[i]? =
          some (k, us.foldl
            (fun w u => if u.vehicleId = k then mergeBatchVehicle w u else w) v) := by
  intro us
  induction us with
  | nil =>
    intro m _
    exact ⟨rfl, fun i k v h => by simpa using h⟩
  | cons u us ih =>
    intro m hnd
    have hstep := applyBatchStep_get u m hnd
    have hnd' : ((applyBatchStep m u).map Prod.fst).Nodup := hstep.1 ▸ hnd
    have IH := ih (applyBatchStep m u) hnd'
    constructor
    · exact IH.1.trans hstep.1
    · intro i k v hi
      have h1 := hstep.2 i k v hi
      have h2 := IH.2 i k _ h1
      exact h2

theorem foldl_merge_of_not_mem :
    ∀ (us : List VehicleUpdateData) (k : String) (w : Vehicle),
      k ∉ us.map VehicleUpdateData.vehicleId →
      us.foldl (fun w' u => if u.vehicleId = k then mergeBatchVehicle w' u else w') w = w := by
  intro us
  induction us with
  | nil => intro k w _; rfl
  | cons u us ih =>
    intro k w h
    simp only [List.map_cons, List.mem_cons, not_or] at h
    calc (u :: us).foldl (fun w' u' => if u'.vehicleId = k then mergeBatchVehicle w' u' else w') w
        = us.foldl (fun w' u' => if u'.vehicleId = k then mergeBatchVehicle w' u' else w')
            (if u.vehicleId = k then mergeBatchVehicle w u else w) := rfl
      _ = w := by rw [if_neg (fun he => h.1 he.symm)]; exact ih k w h.2

/-- C2: over a store whose vehicle ids are pairwise distinct, a batch
update keeps the collection size (and reports it as `vehicleCount`); the
vehicle at every position ends up as the ordered merge (position, speed,
heading, lastUpdate) of the batch entries carrying its id over its prior
fields; in particular every vehicle whose id the batch does not reference
is field-for-field unchanged. -/
theorem onVehicleBatchUpdate_frame (b : VehicleBatchUpdate) (s : SystemStore)
    (h : (s.vehicles.map Vehicle.id).Nodup) :
    (onVehicleBatchUpdate b s).vehicles.length = s.vehicles.length ∧
    (onVehicleBatchUpdate b s).vehicleCount = (s.vehicles.length : ℚ) ∧
    (∀ (i : ℕ) (v : Vehicle), s.vehicles[i]? = some v →
      (onVehicleBatchUpdate b s).vehicles[i]? =
        some (b.vehicles.foldl
          (fun w u => if u.vehicleId = v.id then mergeBatchVehicle w u else w) v)) ∧
    (∀ (i : ℕ) (v : Vehicle), s.vehicles[i]? = some v →
      v.id ∉ b.vehicles.map VehicleUpdateData.vehicleId →
      (onVehicleBatchUpdate b s).vehicles[i]? = some v) := by
  have hbuild : buildVehicleMap s.vehicles = s.vehicles.map (fun v => (v.id, v)) :=
    buildVehicleMap_go s.vehicles [] (by simp) h
  have hkeys : (s.vehicles.map (fun v => (v.id, v))).map Prod.fst =
      s.vehicles.map Vehicle.id := by
    rw [List.map_map]; rfl
  have hnd : ((buildVehicleMap s.vehicles).map Prod.fst).Nodup := by
    rw [hbuild, hkeys]; exact h
  obtain ⟨hk, hpt⟩ := batchFold_get b.vehicles (buildVehicleMap s.vehicles) hnd
  have hveh : (onVehicleBatchUpdate b s).vehicles =
      (b.vehicles.foldl applyBatchStep (buildVehicleMap s.vehicles)).map Prod.snd := rfl
  have hcnt : (onVehicleBatchUpdate b s).vehicleCount =
      ((b.vehicles.foldl applyBatchStep (buildVehicleMap s.vehicles)).length : ℚ) := rfl
  have hlen : (b.vehicles.foldl applyBatchStep (buildVehicleMap s.vehicles)).length =
      s.vehicles.length := by
    have h1 := congrArg List.length hk
    simp only [List.length_map] at h1
    rw [h1, hbuild, List.length_map]
  have hpos : ∀ (i : ℕ) (v : Vehicle), s.vehicles[i]? = some v →
      (onVehicleBatchUpdate b s).vehicles[i]? =
        some (b.vehicles.foldl
          (fun w u => if u.vehicleId = v.id then mergeBatchVehicle w u else w) v) := by
    intro i v hi
    have hbase : (buildVehicleMap s.vehicles)[i]? = some (v.id, v) := by
      rw [hbuild, List.getElem?_map, hi]; rfl
    have hm := hpt i v.id v hbase
    rw [hveh, List.getElem?_map, hm]; rfl
  refine ⟨?_, ?_, hpos, ?_⟩
  · rw [hveh, List.length_map, hlen]
  · rw [hcnt, hlen]
  · intro i v hi hnotmem
    rw [hpos i v hi, foldl_merge_of_not_mem b.vehicles v.id v hnotmem]

/-- First batch entry of the C2 witness: a delta for vehicle "V-1". -/
def updC2a : VehicleUpdateData :=
  { vehicleId := "V-1", position := ⟨7, 8⟩, speed := 33, heading := 180,
    timestamp := 1000, lat := none, lon := none }

/-- Second batch entry of the C2 witness: a delta for vehicle "V-3". -/
def updC2b : VehicleUpdateData :=
  { vehicleId := "V-3", position := ⟨9, 9⟩, speed := 20, heading := 270,
    timestamp := 1001, lat := none, lon := none }

/-- A batch referencing 2 of the 3 vehicles of the witness store. -/
def batchC2 : VehicleBatchUpdate := { vehicles := [updC2a, updC2b], count := 2 }

/-- A store of three vehicles with distinct ids. -/
def storeC2 : SystemStore :=
  vehicleStore [testVehicle "V-1", testVehicle "V-2", testVehicle "V-3"]

/-- Witness for C2: a batch of 2 deltas over a store of 3 vehicles keeps
size 3, merges the referenced vehicles "V-1" and "V-3", and leaves the
unreferenced vehicle "V-2" unchanged. -/
theorem onVehicleBatchUpdate_frame_witness :
    ((storeC2.vehicles.map Vehicle.id).Nodup) ∧
    (onVehicleBatchUpdate batchC2 storeC2).vehicles.length = 3 ∧
    (onVehicleBatchUpdate batchC2 storeC2).vehicles[1]? = some (testVehicle "V-2") ∧
    (onVehicleBatchUpdate batchC2 storeC2).vehicles[0]? =
      some (mergeBatchVehicle (testVehicle "V-1") updC2a) ∧
    (onVehicleBatchUpdate batchC2 storeC2).vehicles[2]? =
      some (mergeBatchVehicle (testVehicle "V-3") updC2b) := by
  have hm := onVehicleBatchUpdate_frame batchC2 storeC2 (by decide)
  refine ⟨by decide, hm.1.trans (by decide), ?_, ?_, ?_⟩
  · exact hm.2.2.2 1 (testVehicle "V-2") (by simp [storeC2, vehicleStore]) (by decide)
  · exact (hm.2.2.1 0 (testVehicle "V-1") (by simp [storeC2, vehicleStore])).trans (by decide)
  · exact (hm.2.2.1 2 (testVehicle "V-3") (by simp [storeC2, vehicleStore])).trans (by decide)

/-! ## C8: hover hit-test -/

/-- The junction "JA" of the C8 counterexample, 20 px from the pointer. -/
def jA : Junction := testJunction "JA" 120 100

/-- The junction "JB" of the C8 counterexample, 5 px from the pointer. -/
def jB : Junction := testJunction "JB" 105 100

/-- Counterexample to C8: with the pointer at (100, 100) and junctions
"JA" at (120, 100) and "JB" at (105, 100), both are within the 30 px
radius and "JB" is strictly nearer, yet the hit-test hovers "JA" — it
selects the first junction in iteration order, not the nearest one. -/
theorem hitTestHover_not_nearest_counterexample :
    hitTestHover 800 600 100 100 [jA, jB] = some "JA" ∧
    sqDist (100, 100) (junctionCanvasPos 800 600 jB) <
      sqDist (100, 100) (junctionCanvasPos 800 600 jA) ∧
    sqDist (100, 100) (junctionCanvasPos 800 600 jB) < 900 ∧
    sqDist (100, 100) (junctionCanvasPos 800 600 jA) < 900 ∧
    jA.id ≠ jB.id := by
  have hA : junctionCanvasPos 800 600 jA = (120, 100) := by
    simp only [junctionCanvasPos, jA, testJunction]
    norm_num
  have hB : junctionCanvasPos 800 600 jB = (105, 100) := by
    simp only [junctionCanvasPos, jB, testJunction]
    norm_num
  refine ⟨?_, ?_, ?_, ?_, by decide⟩
  · show (if sqDist (100, 100) (junctionCanvasPos 800 600 jA) < 900
        then some jA.id else hitTestHover 800 600 100 100 [jB]) = some "JA"
    rw [hA]
    rw [if_pos (by norm_num [sqDist])]
    rfl
  · rw [hA, hB]; norm_num [sqDist]
  · rw [hB]; norm_num [sqDist]
  · rw [hA]; norm_num [sqDist]

/-- C8 (amended): the hover hit-test selects the *first* junction in
collection order whose projected pixel position lies strictly within
30 px of the pointer (squared distance below 900); when no junction is
within the radius, no junction is hovered (`none`). -/
theorem hitTestHover_first_within_radius (cw ch mx my : ℚ) :
    ∀ js : List Junction,
      (hitTestHover cw ch mx my js = none ↔
        ∀ j ∈ js, ¬ sqDist (mx, my) (junctionCanvasPos cw ch j) < 900) ∧
      ∀ s : String, hitTestHover cw ch mx my js = some s →
        ∃ pre j post, js = pre ++ j :: post ∧ j.id = s ∧
          sqDist (mx, my) (junctionCanvasPos cw ch j) < 900 ∧
          ∀ j' ∈ pre, ¬ sqDist (mx, my) (junctionCanvasPos cw ch j') < 900 := by
  intro js
  induction js with
  | nil =>
    refine ⟨by simp [hitTestHover], ?_⟩
    intro s hs
    simp [hitTestHover] at hs
  | cons j rest ih =>
    by_cases hw : sqDist (mx, my) (junctionCanvasPos cw ch j) < 900
    · have hres : hitTestHover cw ch mx my (j :: rest) = some j.id := by
        simp [hitTestHover, hw]
      refine ⟨?_, ?_⟩
      · rw [hres]
        constructor
        · intro h; exact absurd h (by simp)
        · intro h; exact absurd hw (h j (List.mem_cons_self j rest))
      · intro s hs
        rw [hres, Option.some_inj] at hs
        exact ⟨[], j, rest, rfl, hs, hw, by simp⟩
    · have hres : hitTestHover cw ch mx my (j :: rest) = hitTestHover cw ch mx my rest := by
        simp [hitTestHover, hw]
      refine ⟨?_, ?_⟩
      · rw [hres, ih.1]
        constructor
        · intro h j' hj'
          rcases List.mem_cons.mp hj' with h1 | h1
          · exact h1 ▸ hw
          · exact h j' h1
        · intro h j' hj'
          exact h j' (List.mem_cons_of_mem j hj')
      · intro s hs
        rw [hres] at hs
        obtain ⟨pre, j0, post, hsplit, hid, hin, hpre⟩ := ih.2 s hs
        refine ⟨j :: pre, j0, post, by rw [hsplit]; rfl, hid, hin, ?_⟩
        intro j' hj'
        rcases List.mem_cons.mp hj' with h1 | h1
        · exact h1 ▸ hw
        · exact hpre j' h1

/-- Witness for C8 (amended): on the concrete two-junction list of the
counterexample the hit-test returns "JA", and the theorem instantiates to
the decomposition with an empty prefix. -/
theorem hitTestHover_first_within_radius_witness :
    ∃ pre j post, ([jA, jB] : List Junction) = pre ++ j :: post ∧ j.id = "JA" ∧
      sqDist (100, 100) (junctionCanvasPos 800 600 j) < 900 ∧
      ∀ j' ∈ pre, ¬ sqDist (100, 100) (junctionCanvasPos 800 600 j') < 900 :=
  (hitTestHover_first_within_radius 800 600 100 100 [jA, jB]).2 "JA" (by
    show (if sqDist (100, 100) (junctionCanvasPos 800 600 jA) < 900
        then some jA.id else hitTestHover 800 600 100 100 [jB]) = some "JA"
    have hA : junctionCanvasPos 800 600 jA = (120, 100) := by
      simp only [junctionCanvasPos, jA, testJunction]
      norm_num
    rw [hA, if_pos (by norm_num [sqDist])]
    rfl)

/-! ## C4: `gpsToCanvas` totality and (absence of) clamping -/

theorem round_ge_int (x : ℚ) (a : ℤ) (h : (a : ℚ) ≤ x) : (a : ℚ) ≤ ((round x : ℤ) : ℚ) := by
  have h1 : x - 1/2 < ((round x : ℤ) : ℚ) := sub_half_lt_round x
  have h2 : ((a : ℚ) - 1) < ((round x : ℤ) : ℚ) := by linarith
  have h3 : (a - 1 : ℤ) < round x := by exact_mod_cast h2
  have h4 : a ≤ round x := by omega
  exact_mod_cast h4

theorem round_le_int (x : ℚ) (b : ℤ) (h : x ≤ (b : ℚ)) : ((round x : ℤ) : ℚ) ≤ (b : ℚ) := by
  have h1 : ((round x : ℤ) : ℚ) ≤ x + 1/2 := round_le_add_half x
  have h2 : ((round x : ℤ) : ℚ) < (b : ℚ) + 1 := by linarith
  have h3 : round x < b + 1 := by exact_mod_cast h2
  have h4 : round x ≤ b := by omega
  exact_mod_cast h4

/-- The horizontal component of `gpsToCanvas` on the default 800×600
surface, with the division by the longitude range folded into the factor
9500 = 760 / 0.08. -/
theorem gpsToCanvas_x_formula (lat lon : ℚ) :
    (gpsToCanvas lat lon 800 600 20).1 =
      ((round ((20:ℚ) + (lon - 72.60) * 9500) : ℤ) : ℚ) := by
  have hdef : (gpsToCanvas lat lon 800 600 20).1 =
      ((round ((20:ℚ) + (lon - GANDHINAGAR_BOUNDS.west) /
        (GANDHINAGAR_BOUNDS.east - GANDHINAGAR_BOUNDS.west) * (800 - 2 * 20)) : ℤ) : ℚ) := rfl
  have hkey : (20:ℚ) + (lon - GANDHINAGAR_BOUNDS.west) /
      (GANDHINAGAR_BOUNDS.east - GANDHINAGAR_BOUNDS.west) * (800 - 2 * 20) =
      20 + (lon - 72.60) * 9500 := by
    simp only [GANDHINAGAR_BOUNDS]
    rw [show (72.68:ℚ) - 72.60 = 2/25 by norm_num, div_eq_mul_inv]
    norm_num
    ring
  rw [hdef, hkey]

/-- The vertical component of `gpsToCanvas` on the default 800×600
surface, with the division by the latitude range folded into the factor
8000 = 560 / 0.07. -/
theorem gpsToCanvas_y_formula (lat lon : ℚ) :
    (gpsToCanvas lat lon 800 600 20).2 =
      ((round ((20:ℚ) + (23.25 - lat) * 8000) : ℤ) : ℚ) := by
  have hdef : (gpsToCanvas lat lon 800 600 20).2 =
      ((round ((20:ℚ) + (GANDHINAGAR_BOUNDS.north - lat) /
        (GANDHINAGAR_BOUNDS.north - GANDHINAGAR_BOUNDS.south) * (600 - 2 * 20)) : ℤ) : ℚ) := rfl
  have hkey : (20:ℚ) + (GANDHINAGAR_BOUNDS.north - lat) /
      (GANDHINAGAR_BOUNDS.north - GANDHINAGAR_BOUNDS.south) * (600 - 2 * 20) =
      20 + (23.25 - lat) * 8000 := by
    simp only [GANDHINAGAR_BOUNDS]
    rw [show (23.25:ℚ) - 23.18 = 7/100 by norm_num, div_eq_mul_inv]
    norm_num
    ring
  rw [hdef, hkey]

/-- Counterexample to C4: the out-of-range input (lat 23.25, lon 72.50)
is mapped to x = −930, far outside the padded rectangle [20, 780] —
`gpsToCanvas` performs no clamping. -/
theorem gpsToCanvas_no_clamp_counterexample :
    (gpsToCanvas 23.25 72.50 800 600 20).1 = -930 ∧
    ¬ (20 ≤ (gpsToCanvas 23.25 72.50 800 600 20).1 ∧
        (gpsToCanvas 23.25 72.50 800 600 20).1 ≤ 780) := by
  have h : (gpsToCanvas 23.25 72.50 800 600 20).1 = -930 := by
    norm_num [gpsToCanvas, GANDHINAGAR_BOUNDS, round_eq]
  refine ⟨h, ?_⟩
  rw [h]
  norm_num

/-- C4 (amended): `gpsToCanvas` is a total affine map followed by
rounding; the bounding-box ranges it divides by are the fixed nonzero
constants 0.07 and 0.08, so no division by zero can occur; for every input
inside the bounding box the output lies in the padded rectangle
[20, 780] × [20, 580] — but out-of-box inputs are not clamped (see the
counterexample). -/
theorem gpsToCanvas_in_padded_rect (lat lon : ℚ)
    (hlat1 : 23.18 ≤ lat) (hlat2 : lat ≤ 23.25)
    (hlon1 : 72.60 ≤ lon) (hlon2 : lon ≤ 72.68) :
    (20 ≤ (gpsToCanvas lat lon 800 600 20).1 ∧ (gpsToCanvas lat lon 800 600 20).1 ≤ 780 ∧
      20 ≤ (gpsToCanvas lat lon 800 600 20).2 ∧ (gpsToCanvas lat lon 800 600 20).2 ≤ 580) ∧
    (GANDHINAGAR_BOUNDS.north - GANDHINAGAR_BOUNDS.south ≠ 0 ∧
      GANDHINAGAR_BOUNDS.east - GANDHINAGAR_BOUNDS.west ≠ 0) := by
  rw [gpsToCanvas_x_formula, gpsToCanvas_y_formula]
  refine ⟨⟨?_, ?_, ?_, ?_⟩, ?_, ?_⟩
  · have hmul : (0:ℚ) ≤ (lon - 72.60) * 9500 :=
      mul_nonneg (by linarith) (by norm_num)
    exact_mod_cast round_ge_int _ 20 (by push_cast; linarith)
  · have hmul : (lon - 72.60) * 9500 ≤ 0.08 * 9500 :=
      mul_le_mul_of_nonneg_right (by linarith) (by norm_num)
    have h08 : (0.08:ℚ) * 9500 = 760 := by norm_num
    exact_mod_cast round_le_int _ 780 (by push_cast; linarith)
  · have hmul : (0:ℚ) ≤ (23.25 - lat) * 8000 :=
      mul_nonneg (by linarith) (by norm_num)
    exact_mod_cast round_ge_int _ 20 (by push_cast; linarith)
  · have hmul : (23.25 - lat) * 8000 ≤ 0.07 * 8000 :=
      mul_le_mul_of_nonneg_right (by linarith) (by norm_num)
    have h07 : (0.07:ℚ) * 8000 = 560 := by norm_num
    exact_mod_cast round_le_int _ 580 (by push_cast; linarith)
  · simp only [GANDHINAGAR_BOUNDS]
    norm_num
  · simp only [GANDHINAGAR_BOUNDS]
    norm_num

/-- Witness for C4 (amended): the in-box point (23.2, 72.65) lands inside
the padded rectangle. -/
theorem gpsToCanvas_in_padded_rect_witness :
    ((23.18:ℚ) ≤ 23.2 ∧ (23.2:ℚ) ≤ 23.25 ∧ (72.60:ℚ) ≤ 72.65 ∧ (72.65:ℚ) ≤ 72.68) ∧
    (20 ≤ (gpsToCanvas 23.2 72.65 800 600 20).1 ∧
      (gpsToCanvas 23.2 72.65 800 600 20).1 ≤ 780 ∧
      20 ≤ (gpsToCanvas 23.2 72.65 800 600 20).2 ∧
      (gpsToCanvas 23.2 72.65 800 600 20).2 ≤ 580) :=
  ⟨⟨by norm_num, by norm_num, by norm_num, by norm_num⟩,
    (gpsToCanvas_in_padded_rect 23.2 72.65 (by norm_num) (by norm_num)
      (by norm_num) (by norm_num)).1⟩

/-! ## C3: projection round-trip -/

/-- Counterexample to C3: the in-box corner point (23.25, 72.60) projects
to the padded corner (20, 20), but `canvasToGPS` maps (20, 20) back over
the *unpadded* canvas, yielding (69743/3000, 36301/500) ≈
(23.2477, 72.602) instead of (23.25, 72.60); re-projecting that point
lands at pixel (39, 39), i.e. 19 pixels away on each axis — not within
any sub-pixel (or even 10-pixel) tolerance. -/
theorem roundTrip_padding_counterexample :
    gpsToCanvas 23.25 72.60 800 600 20 = (20, 20) ∧
    canvasToGPS 20 20 800 600 = (69743/3000, 36301/500) ∧
    (69743/3000 : ℚ) ≠ 23.25 ∧ (36301/500 : ℚ) ≠ 72.60 ∧
    gpsToCanvas (69743/3000) (36301/500) 800 600 20 = (39, 39) := by
  refine ⟨?_, ?_, by norm_num, by norm_num, ?_⟩ <;>
    norm_num [gpsToCanvas, canvasToGPS, GANDHINAGAR_BOUNDS, round_eq]

/-- C3 (amended): for every point inside the bounding box, the round trip
`canvasToGPS ∘ gpsToCanvas` on the default 800×600 surface returns a point
within 287/120000° (≈ 0.00239°) latitude and 41/20000° (= 0.00205°)
longitude of the input — roughly 19 pixels, not a sub-pixel tolerance —
because `canvasToGPS` inverts over the full canvas while `gpsToCanvas`
maps into the 20-px-padded rectangle (plus up to half a pixel of
rounding). -/
theorem roundTrip_error_bound (lat lon : ℚ)
    (hlat1 : 23.18 ≤ lat) (hlat2 : lat ≤ 23.25)
    (hlon1 : 72.60 ≤ lon) (hlon2 : lon ≤ 72.68) :
    |(canvasToGPS (gpsToCanvas lat lon 800 600 20).1
        (gpsToCanvas lat lon 800 600 20).2 800 600).1 - lat| ≤ 287/120000 ∧
    |(canvasToGPS (gpsToCanvas lat lon 800 600 20).1
        (gpsToCanvas lat lon 800 600 20).2 800 600).2 - lon| ≤ 41/20000 := by
  obtain ⟨rx, hrx⟩ : ∃ r : ℤ, round ((20:ℚ) + (lon - 72.60) * 9500) = r := ⟨_, rfl⟩
  obtain ⟨ry, hry⟩ : ∃ r : ℤ, round ((20:ℚ) + (23.25 - lat) * 8000) = r := ⟨_, rfl⟩
  have hx : (gpsToCanvas lat lon 800 600 20).1 = ((rx : ℤ) : ℚ) := by
    rw [gpsToCanvas_x_formula, hrx]
  have hy : (gpsToCanvas lat lon 800 600 20).2 = ((ry : ℤ) : ℚ) := by
    rw [gpsToCanvas_y_formula, hry]
  have hbx1 : (20:ℚ) + (lon - 72.60) * 9500 - 1/2 < (rx : ℚ) := by
    rw [← hrx]; exact sub_half_lt_round _
  have hbx2 : (rx : ℚ) ≤ 20 + (lon - 72.60) * 9500 + 1/2 := by
    rw [← hrx]; exact round_le_add_half _
  have hby1 : (20:ℚ) + (23.25 - lat) * 8000 - 1/2 < (ry : ℚ) := by
    rw [← hry]; exact sub_half_lt_round _
  have hby2 : (ry : ℚ) ≤ 20 + (23.25 - lat) * 8000 + 1/2 := by
    rw [← hry]; exact round_le_add_half _
  rw [hx, hy]
  have hlat' : (canvasToGPS ((rx : ℤ) : ℚ) ((ry : ℤ) : ℚ) 800 600).1 =
      GANDHINAGAR_BOUNDS.south + (1 - ((ry : ℤ) : ℚ) / 600) *
        (GANDHINAGAR_BOUNDS.north - GANDHINAGAR_BOUNDS.south) := rfl
  have hlng' : (canvasToGPS ((rx : ℤ) : ℚ) ((ry : ℤ) : ℚ) 800 600).2 =
      GANDHINAGAR_BOUNDS.west + (((rx : ℤ) : ℚ) / 800) *
        (GANDHINAGAR_BOUNDS.east - GANDHINAGAR_BOUNDS.west) := rfl
  have hlatlin : (canvasToGPS ((rx : ℤ) : ℚ) ((ry : ℤ) : ℚ) 800 600).1 =
      23.25 - ((ry : ℤ) : ℚ) * (7/60000) := by
    rw [hlat']
    simp only [GANDHINAGAR_BOUNDS]
    ring_nf
  have hlnglin : (canvasToGPS ((rx : ℤ) : ℚ) ((ry : ℤ) : ℚ) 800 600).2 =
      72.60 + ((rx : ℤ) : ℚ) * (1/10000) := by
    rw [hlng']
    simp only [GANDHINAGAR_BOUNDS]
    ring_nf
  rw [hlatlin, hlnglin]
  constructor
  · rw [abs_le]
    constructor <;> linarith
  · rw [abs_le]
    constructor <;> linarith

/-- Witness for C3 (amended): at the in-box point (23.2, 72.65) the round
trip stays within the stated error bounds. -/
theorem roundTrip_error_bound_witness :
    ((23.18:ℚ) ≤ 23.2 ∧ (23.2:ℚ) ≤ 23.25 ∧ (72.60:ℚ) ≤ 72.65 ∧ (72.65:ℚ) ≤ 72.68) ∧
    |(canvasToGPS (gpsToCanvas 23.2 72.65 800 600 20).1
        (gpsToCanvas 23.2 72.65 800 600 20).2 800 600).1 - 23.2| ≤ 287/120000 ∧
    |(canvasToGPS (gpsToCanvas 23.2 72.65 800 600 20).1
        (gpsToCanvas 23.2 72.65 800 600 20).2 800 600).2 - 72.65| ≤ 41/20000 :=
  ⟨⟨by norm_num, by norm_num, by norm_num, by norm_num⟩,
    roundTrip_error_bound 23.2 72.65 (by norm_num) (by norm_num)
      (by norm_num) (by norm_num)⟩

end CityCore
